import Mathlib

/-
  Verification development for the go-dutch receipt service.

  Shallow embedding of the receipt persistence and update protocol:
  - the MongoDB store adapter (src/unnamed/part_000 : mongodb.js):
    createReceiptDocument, getReceiptById, updateReceiptById;
  - the identity verifier (src/functions/lib/auth.js): verifyAuthToken;
  - the four lifecycle handlers: saveReceipt (src/functions/src/saveReceipt.js),
    loadReceiptById (src/unnamed/part_002), updateReceiptById handler
    (src/unnamed/part_003), processReceipt (src/functions/src/processReceipt.js).

  Modelling conventions:
  - JSON/JS values are the inductive `Value`; documents are association lists
    of string keys.  JS object-literal and spread semantics ("last binding
    wins") are modelled by list append together with a last-wins lookup
    (`assocGet`).
  - `new Date()` is `Value.date now` where `now : Nat` is a logical clock
    passed to each handler call.  A JS `Date` object is always truthy,
    regardless of its numeric value.
  - MongoDB ObjectId parsing accepts exactly 24 hexadecimal characters.
  - Thrown JS exceptions are modelled with `Except` or with explicit error
    branches where the source catches them.
  - The database connection itself is assumed reachable: the connection-pool
    boilerplate of mongodb.js is outside the claims under verification.
-/

namespace GoDutch

/-- JSON-like runtime values of the JS embedding.  `date` stands for a JS
`Date` object (always truthy); BSON has no undefined, and the driver
serialises `undefined` as `null`, so no separate undefined constructor is
needed: an absent key is `Option.none` at the lookup level. -/
inductive Value : Type where
  | null
  | bool (b : Bool)
  | num (n : Int)
  | str (s : String)
  | date (t : Nat)
  | arr (elems : List Value)
  | obj (fields : List (String × Value))

/-- A JS object / BSON document: an association list of fields.  Duplicate
keys may occur textually; lookup takes the last binding, matching JS
object-literal and spread semantics. -/
abbrev Doc : Type := List (String × Value)

/-- The receipts collection: document id (the ObjectId in string form)
mapped to the stored document. -/
abbrev Store : Type := List (String × Doc)

/-- Left-biased alternative on options. -/
def altO {α : Type} (x y : Option α) : Option α :=
  match x with
  | some w => some w
  | none => y

/-- Last-binding-wins association lookup: `{...a, ...b}` is `a ++ b` and the
later binding shadows the earlier one, exactly as in JS. -/
def assocGet {α : Type} (fs : List (String × α)) (k : String) : Option α :=
  match fs with
  | [] => none
  | p :: t =>
    match assocGet t k with
    | some w => some w
    | none => if p.1 = k then some p.2 else none

/-- JS truthiness.  Objects, arrays and Date objects are always truthy. -/
def truthy : Value → Bool
  | Value.null => false
  | Value.bool b => b
  | Value.num n => n ≠ 0
  | Value.str s => s ≠ ""
  | Value.date _ => true
  | Value.arr _ => true
  | Value.obj _ => true

/-- Truthiness of a possibly-absent value (`undefined` is falsy). -/
def truthyO : Option Value → Bool
  | none => false
  | some v => truthy v

/-- JS property read `v.k` on a value known not to be null/undefined:
objects yield the field, other values yield `undefined` (none).
(Named properties such as `items`, `userId` do not exist on primitives,
arrays or dates.) -/
def jsField (v : Value) (k : String) : Option Value :=
  match v with
  | Value.obj fs => assocGet fs k
  | _ => none

/-- JS object-spread `{...v}` contributions: objects spread their fields,
arrays and strings spread index-keyed entries, primitives spread nothing. -/
def spreadFields : Value → List (String × Value)
  | Value.obj fs => fs
  | Value.arr xs => xs.enum.map (fun p => (toString p.1, p.2))
  | Value.str s => s.toList.enum.map (fun p => (toString p.1, Value.str (String.mk [p.2])))
  | _ => []

def isHexChar (c : Char) : Bool :=
  c.isDigit || ('a' ≤ c && c ≤ 'f') || ('A' ≤ c && c ≤ 'F')

/-- `new ObjectId(id)` succeeds exactly on 24-character hexadecimal strings. -/
def isValidObjectId (s : String) : Bool :=
  s.length = 24 && s.toList.all isHexChar

/-- `updateOne` in-place document replacement at a matched id. -/
def replaceStore (s : Store) (id : String) (d : Doc) : Store :=
  s.map (fun p => (p.1, if p.1 = id then d else p.2))

/-! ## Identity verifier — src/functions/lib/auth.js -/

/-- Drop `sep` from the front of `s` when it is a prefix. -/
def dropPre : List Char → List Char → Option (List Char)
  | [], s => some s
  | _ :: _, [] => none
  | c :: cs, d :: ds => if c = d then dropPre cs ds else none

/-- `s.startsWith(p)`. -/
def strStarts (s p : String) : Bool := (dropPre p.toList s.toList).isSome

/-- Fuel-indexed splitter implementing `String.prototype.split` for a
non-empty separator; fuel `s.length` always suffices. -/
def splitL (sep : List Char) : Nat → List Char → List (List Char)
  | _, [] => [[]]
  | 0, c :: rest => [c :: rest]
  | Nat.succ f, c :: rest =>
    match dropPre sep (c :: rest) with
    | some rest2 => [] :: splitL sep f rest2
    | none =>
      match splitL sep f rest with
      | [] => [[c]]
      | g :: gs => (c :: g) :: gs

/-- JS `s.split(sep)` for non-empty `sep`. -/
def jsSplit (s sep : String) : List String :=
  (splitL sep.toList s.toList.length s.toList).map (fun l => String.mk l)

/-- `authHeader.split('Bearer ')[1]`, with `undefined` read as `""`
(the subsequent falsiness check treats them alike). -/
def extractBearerToken (h : String) : String := (jsSplit h "Bearer ").getD 1 ""

/-- Outcome of the identity-provider SDK call `getAuth().verifyIdToken`:
either it raises (caught by the surrounding try/catch) or it yields a
decoded token whose `uid` may be empty/falsy. -/
inductive TokenOutcome : Type where
  | sdkError (msg : String)
  | decoded (uid : String)
deriving DecidableEq

/-- auth.js lines 15-49: verifyAuthToken.  All failure modes collapse to
`none`; the try/catch around the SDK call is the `sdkError` branch. -/
def verifyAuthToken (verify : String → TokenOutcome) (authHeader : Option String) :
    Option String :=
  match authHeader with
  | none => none
  | some h =>
    if h = "" || !(strStarts h "Bearer ") then none
    else
      let idToken := extractBearerToken h
      if idToken = "" then none
      else
        match verify idToken with
        | TokenOutcome.sdkError _ => none
        | TokenOutcome.decoded uid => if uid = "" then none else some uid

/-! ## Document store adapter — src/unnamed/part_000 (mongodb.js) -/

/-- mongodb.js lines 89-119: createReceiptDocument.  Stamps
`createdAt`/`updatedAt` over the payload, inserts, and returns the new
id (`freshId` models the ObjectId generated by the driver; the inserted
document also carries it as `_id`). -/
def createReceiptDocument (store : Store) (now : Nat) (freshId : String)
    (receiptData : Doc) : Store × String :=
  let documentToInsert : Doc :=
    receiptData ++
      [("createdAt", Value.date now), ("updatedAt", Value.date now),
       ("_id", Value.str freshId)]
  (store ++ [(freshId, documentToInsert)], freshId)

/-- mongodb.js lines 126-163: getReceiptById.  A falsy id fails the input
validation and the error is rethrown by the catch block (`Except.error`);
an id that is not a valid ObjectId is caught locally and yields `null`;
otherwise the lookup result (possibly `null`) is returned. -/
def getReceiptById (store : Store) (id : String) : Except String (Option Doc) :=
  if id = "" then Except.error "Invalid receipt ID"
  else if !(isValidObjectId id) then Except.ok none
  else Except.ok (assocGet store id)

/-- mongodb.js lines 171-236: updateReceiptById.  A falsy id throws and the
catch block converts it to `false`; an invalid ObjectId returns `false`;
otherwise `$set` applies `{...updateData, updatedAt: now}`, with
`createdAt` forced back to the existing one when the existing document has
a truthy `createdAt`; a matched document yields `true` even when nothing
was modified. -/
def updateSetDoc (doc : Doc) (now : Nat) (updateData : Doc) : Doc :=
  if truthyO (assocGet doc "createdAt") then
    doc ++ (updateData ++
      [("updatedAt", Value.date now),
       ("createdAt", (assocGet doc "createdAt").getD Value.null)])
  else
    doc ++ (updateData ++ [("updatedAt", Value.date now)])

def updateReceiptById (store : Store) (now : Nat) (id : String) (updateData : Doc) :
    Store × Bool :=
  if id = "" then (store, false)
  else if !(isValidObjectId id) then (store, false)
  else
    match assocGet store id with
    | none => (store, false)
    | some doc => (replaceStore store id (updateSetDoc doc now updateData), true)

/-! ## HTTP layer -/

/-- The parts of an inbound request the handlers consume.  `urlId` models
`request.url.split('/').filter(Boolean).pop()` (`none` when the path has no
segment); `body` models `request.body` (`none` when absent/falsy). -/
structure HRequest : Type where
  method : String
  authHeader : Option String
  urlId : Option String
  body : Option Doc

/-- A JSON failure body: `{error, success:false}`. -/
def mkErr (msg : String) : Doc :=
  [("error", Value.str msg), ("success", Value.bool false)]

/-! ## save handler — src/functions/src/saveReceipt.js -/

/-- saveReceipt.js lines 20 and 28: `x.items && Array.isArray(x.items)` —
the field exists and is an array (an empty array passes: arrays are truthy). -/
def hasItemsArray (v : Value) : Bool :=
  match jsField v "items" with
  | some (Value.arr _) => true
  | _ => false

/-- saveReceipt.js lines 11-34: validateReceiptData. -/
def validateReceiptData (data : Doc) : Bool :=
  if !(truthyO (assocGet data "originalData")) &&
     !(truthyO (assocGet data "processedData")) &&
     !(truthyO (assocGet data "shareData")) then false
  else if truthyO (assocGet data "processedData") &&
          !(hasItemsArray ((assocGet data "processedData").getD Value.null)) then false
  else if truthyO (assocGet data "shareData") &&
          !(hasItemsArray ((assocGet data "shareData").getD Value.null)) then false
  else true

/-- saveReceipt.js lines 106-110: the synthesized processingMetadata. -/
def defaultMetadata (now : Nat) (userId : String) : Value :=
  Value.obj
    [("processedAt", Value.date now), ("source", Value.str "mobile_app"),
     ("userId", Value.str userId)]

/-- saveReceipt.js lines 104-114: synthesize processingMetadata when falsy,
else inject the caller into the supplied one
(`receiptData.processingMetadata.userId = userId`).  Assigning a property
on a primitive throws in strict mode (`none`); on an array or Date the
assignment succeeds but BSON serialisation drops the named property, so
the stored value is unchanged. -/
def stampMetadata (receiptData : Doc) (now : Nat) (userId : String) : Option Doc :=
  match assocGet receiptData "processingMetadata" with
  | none => some (receiptData ++ [("processingMetadata", defaultMetadata now userId)])
  | some m =>
    if truthy m then
      match m with
      | Value.obj fs =>
        some (receiptData ++
          [("processingMetadata", Value.obj (fs ++ [("userId", Value.str userId)]))])
      | Value.arr xs => some (receiptData ++ [("processingMetadata", Value.arr xs)])
      | Value.date t => some (receiptData ++ [("processingMetadata", Value.date t)])
      | _ => none
    else some (receiptData ++ [("processingMetadata", defaultMetadata now userId)])

/-- saveReceipt.js lines 37-161: the save handler.  Result: HTTP status,
JSON body, resulting store. -/
def saveReceipt (verify : String → TokenOutcome) (store : Store) (now : Nat)
    (freshId : String) (req : HRequest) : Nat × Doc × Store :=
  if req.method ≠ "POST" then (405, mkErr "Method not allowed", store)
  else
    match verifyAuthToken verify req.authHeader with
    | none => (401, mkErr "Unauthorized: Authentication required", store)
    | some userId =>
      match req.body with
      | none => (400, mkErr "Receipt data is required", store)
      | some receiptData =>
        if !(validateReceiptData receiptData) then
          (400, mkErr "Invalid receipt data structure. Missing required fields", store)
        else
          match stampMetadata receiptData now userId with
          | none => (500, mkErr "Failed to save receipt data: cannot create property on primitive", store)
          | some receiptData2 =>
            let r := createReceiptDocument store now freshId receiptData2
            if r.2 = "" then (500, mkErr "Failed to create receipt document", r.1)
            else (200, [("id", Value.str r.2), ("success", Value.bool true)], r.1)

/-! ## load handler — src/unnamed/part_002 (loadReceiptById.js) -/

/-- loadReceiptById.js lines 84-92: `responseData.shareData.documentId = id`
(and likewise for processedData) when the field is truthy.  The document
was first deep-copied via JSON round trip (value-preserving here, modelled
as the identity, except that a Date becomes a string — so a bare Date in
the field would make the property assignment throw).  Assignment on an
array succeeds but the added named property is dropped again when the
response is serialised; on a primitive it throws (`none`). -/
def injectDocId (d : Doc) (key : String) (id : String) : Option Doc :=
  match assocGet d key with
  | none => some d
  | some v =>
    if truthy v then
      match v with
      | Value.obj fs =>
        some (d ++ [(key, Value.obj (fs ++ [("documentId", Value.str id)]))])
      | Value.arr _ => some d
      | _ => none
    else some d

/-- loadReceiptById.js lines 7-114: the load handler (read-only: no store
output).  Result: HTTP status and JSON body. -/
def loadReceiptById (verify : String → TokenOutcome) (store : Store)
    (req : HRequest) : Nat × Doc :=
  if req.method ≠ "GET" then (405, mkErr "Method not allowed")
  else
    match verifyAuthToken verify req.authHeader with
    | none => (401, mkErr "Unauthorized: Authentication required")
    | some _userId =>
      match req.urlId with
      | none => (400, mkErr "Receipt ID is required")
      | some id =>
        match getReceiptById store id with
        | Except.error msg => (500, mkErr ("Failed to load receipt: " ++ msg))
        | Except.ok none => (404, mkErr "Receipt not found")
        | Except.ok (some receiptData) =>
          match injectDocId receiptData "shareData" id with
          | none => (500, mkErr "Failed to load receipt: cannot create property on primitive")
          | some d1 =>
            match injectDocId d1 "processedData" id with
            | none => (500, mkErr "Failed to load receipt: cannot create property on primitive")
            | some d2 =>
              (200, d2 ++ [("documentId", Value.str id), ("success", Value.bool true)])

/-! ## update handler — src/unnamed/part_003 (updateReceiptById.js) -/

/-- updateReceiptById.js lines 7-156: the update handler.  Lines 100-115:
when `updateData.processingMetadata` is absent (`undefined`) or `null`, the
branch dereferences `updateData.processingMetadata.userId` and throws, which
the outer catch turns into a 500; when it is truthy, the supplied metadata
is spread and `updatedAt`/`userId`/`updatedBy` are overwritten with the
current caller; when it is falsy-but-not-nullish (0, "", false), the
synthesis branch runs with `userId: undefined` (stored as `null` by the
driver) and `updatedBy: [userId]`. -/
def updateReceiptByIdHandler (verify : String → TokenOutcome) (store : Store)
    (now : Nat) (req : HRequest) : Nat × Doc × Store :=
  if req.method ≠ "PUT" then (405, mkErr "Method not allowed", store)
  else
    match verifyAuthToken verify req.authHeader with
    | none => (401, mkErr "Unauthorized: Authentication required", store)
    | some userId =>
      match req.urlId with
      | none => (400, mkErr "Receipt ID is required", store)
      | some id =>
        match req.body with
        | none => (400, mkErr "Update data is required", store)
        | some updateData =>
          match getReceiptById store id with
          | Except.error msg => (500, mkErr ("Failed to update receipt: " ++ msg), store)
          | Except.ok none => (404, mkErr "Receipt not found", store)
          | Except.ok (some existingReceipt) =>
            match assocGet updateData "processingMetadata" with
            | none =>
              (500, mkErr "Failed to update receipt: Cannot read properties of undefined (reading userId)", store)
            | some Value.null =>
              (500, mkErr "Failed to update receipt: Cannot read properties of null (reading userId)", store)
            | some m =>
              let newMeta : Value :=
                if truthy m then
                  Value.obj (spreadFields m ++
                    [("updatedAt", Value.date now), ("userId", Value.str userId),
                     ("updatedBy", Value.arr [Value.str userId])])
                else
                  Value.obj ((match assocGet existingReceipt "processingMetadata" with
                      | some v => if truthy v then spreadFields v else []
                      | none => []) ++
                    [("updatedAt", Value.date now), ("userId", Value.null),
                     ("updatedBy", Value.arr [Value.str userId])])
              let updateData2 := updateData ++ [("processingMetadata", newMeta)]
              let r := updateReceiptById store now id updateData2
              if r.2 then (200, [("id", Value.str id), ("success", Value.bool true)], r.1)
              else (500, mkErr "Failed to update receipt", r.1)

/-! ## process handler — src/functions/src/processReceipt.js -/

/-- processReceipt.js lines 128-193: the process handler.  The Gemini
extraction (an external capability) is the parameter `gemini`, taking the
image and MIME type and either throwing or returning the parsed structured
object.  The result additionally reports whether the extraction service
was invoked. -/
def processReceipt (verify : String → TokenOutcome)
    (gemini : Value → Value → Except String Doc) (req : HRequest) :
    Nat × Doc × Bool :=
  if req.method ≠ "POST" then (405, mkErr "Method not allowed", false)
  else
    match verifyAuthToken verify req.authHeader with
    | none => (401, mkErr "Unauthorized: Authentication required", false)
    | some userId =>
      let body := req.body.getD []
      let image := assocGet body "image"
      if !(truthyO image) then (400, mkErr "No image provided", false)
      else
        let mime := (assocGet body "type").getD (Value.str "image/jpeg")
        match gemini (image.getD Value.null) mime with
        | Except.error msg => (500, mkErr msg, true)
        | Except.ok result =>
          (200, result ++ [("userId", Value.str userId), ("success", Value.bool true)], true)



/-! ## Basic lemmas about the association-list semantics -/

theorem altO_none_right {α : Type} (x : Option α) : altO x none = x := by
  cases x <;> rfl

theorem altO_none_left {α : Type} (x : Option α) : altO none x = x := rfl

theorem altO_some {α : Type} (w : α) (y : Option α) : altO (some w) y = some w := rfl

theorem assocGet_nil {α : Type} (k : String) :
    assocGet ([] : List (String × α)) k = none := rfl

theorem assocGet_cons {α : Type} (p : String × α) (t : List (String × α)) (k : String) :
    assocGet (p :: t) k =
      match assocGet t k with
      | some w => some w
      | none => if p.1 = k then some p.2 else none := rfl

theorem assocGet_append {α : Type} (a b : List (String × α)) (k : String) :
    assocGet (a ++ b) k = altO (assocGet b k) (assocGet a k) := by
  induction a with
  | nil =>
    show assocGet b k = altO (assocGet b k) none
    rw [altO_none_right]
  | cons p t ih =>
    rw [List.cons_append, assocGet_cons, assocGet_cons, ih]
    cases hb : assocGet b k with
    | some w => rfl
    | none =>
      rw [altO_none_left, altO_none_left]

theorem truthyO_some_of_true {x : Option Value} (h : truthyO x = true) :
    ∃ v, x = some v ∧ truthy v = true := by
  cases x with
  | none => exact absurd h (by simp [truthyO])
  | some v => exact ⟨v, rfl, h⟩

theorem assocGet_replaceStore_eq (s : Store) (id : String) (d : Doc) :
    assocGet (replaceStore s id d) id = (assocGet s id).map (fun _ => d) := by
  induction s with
  | nil => rfl
  | cons p t ih =>
    simp only [replaceStore, List.map_cons] at *
    rw [assocGet_cons, assocGet_cons, ih]
    cases assocGet t id with
    | some w => rfl
    | none =>
      by_cases hp : p.1 = id
      · simp [hp]
      · simp [hp]

theorem assocGet_replaceStore_other (s : Store) (id : String) (d : Doc) (k : String)
    (hk : k ≠ id) : assocGet (replaceStore s id d) k = assocGet s k := by
  induction s with
  | nil => rfl
  | cons p t ih =>
    simp only [replaceStore, List.map_cons] at *
    rw [assocGet_cons, assocGet_cons, ih]
    cases assocGet t k with
    | some w => rfl
    | none =>
      by_cases hp : p.1 = k
      · simp [hp, hk]
      · simp [hp]

theorem assocGet_two_ne (k k1 k2 : String) (v1 v2 : Value)
    (h1 : k ≠ k1) (h2 : k ≠ k2) :
    assocGet [(k1, v1), (k2, v2)] k = none := by
  simp [assocGet, Ne.symm h1, Ne.symm h2]

theorem assocGet_one_ne (k k1 : String) (v1 : Value) (h1 : k ≠ k1) :
    assocGet [(k1, v1)] k = none := by
  simp [assocGet, Ne.symm h1]

theorem isValidObjectId_ne_empty {id : String} (h : isValidObjectId id = true) :
    id ≠ "" := by
  intro he
  subst he
  exact absurd h (by decide)

/-! ## Characterisation of the store adapter operations -/

theorem updateSetDoc_get_other (doc : Doc) (now : Nat) (patch : Doc) (k : String)
    (hk1 : k ≠ "updatedAt") (hk2 : k ≠ "createdAt") :
    assocGet (updateSetDoc doc now patch) k = altO (assocGet patch k) (assocGet doc k) := by
  unfold updateSetDoc
  cases hct : truthyO (assocGet doc "createdAt") with
  | true =>
    rw [if_pos rfl, assocGet_append, assocGet_append,
      assocGet_two_ne k _ _ _ _ hk1 hk2, altO_none_left]
  | false =>
    rw [if_neg Bool.false_ne_true, assocGet_append, assocGet_append,
      assocGet_one_ne k _ _ hk1, altO_none_left]

theorem updateSetDoc_get_updatedAt (doc : Doc) (now : Nat) (patch : Doc) :
    assocGet (updateSetDoc doc now patch) "updatedAt" = some (Value.date now) := by
  unfold updateSetDoc
  cases hct : truthyO (assocGet doc "createdAt") with
  | true =>
    have hu : assocGet [("updatedAt", Value.date now),
        ("createdAt", (assocGet doc "createdAt").getD Value.null)] "updatedAt" =
        some (Value.date now) := by simp [assocGet]
    rw [if_pos rfl, assocGet_append, assocGet_append, hu, altO_some, altO_some]
  | false =>
    have hu : assocGet [("updatedAt", Value.date now)] "updatedAt" =
        some (Value.date now) := by simp [assocGet]
    rw [if_neg Bool.false_ne_true,
      assocGet_append, assocGet_append, hu, altO_some, altO_some]

theorem updateSetDoc_get_createdAt_truthy (doc : Doc) (now : Nat) (patch : Doc)
    (hct : truthyO (assocGet doc "createdAt") = true) :
    assocGet (updateSetDoc doc now patch) "createdAt" = assocGet doc "createdAt" := by
  obtain ⟨cv, hcv, _⟩ := truthyO_some_of_true hct
  unfold updateSetDoc
  have hc : assocGet [("updatedAt", Value.date now),
      ("createdAt", (assocGet doc "createdAt").getD Value.null)] "createdAt" =
      some ((assocGet doc "createdAt").getD Value.null) := by simp [assocGet]
  rw [if_pos hct, assocGet_append, assocGet_append, hc, altO_some, altO_some, hcv]
  rfl

theorem updateSetDoc_get_createdAt_falsy (doc : Doc) (now : Nat) (patch : Doc)
    (hct : truthyO (assocGet doc "createdAt") = false) :
    assocGet (updateSetDoc doc now patch) "createdAt" =
      altO (assocGet patch "createdAt") (assocGet doc "createdAt") := by
  unfold updateSetDoc
  have hc : assocGet [("updatedAt", Value.date now)] "createdAt" = none := by
    simp [assocGet]
  rw [if_neg (by simp [hct]),
    assocGet_append, assocGet_append, hc, altO_none_left]

/-- A matched `updateReceiptById` returns `true` and rewrites only the
matched document, to the `$set` merge. -/
theorem updateReceiptById_found (store : Store) (now : Nat) (id : String)
    (patch : Doc) (doc : Doc)
    (hv : isValidObjectId id = true) (hd : assocGet store id = some doc) :
    updateReceiptById store now id patch =
      (replaceStore store id (updateSetDoc doc now patch), true) := by
  have hne : id ≠ "" := isValidObjectId_ne_empty hv
  simp only [updateReceiptById, if_neg hne, hv, Bool.not_true, Bool.false_eq_true,
    if_false, hd]

/-- `updateReceiptById` fails (returning the untouched store and `false`)
when the id is invalid or no document matches. -/
theorem updateReceiptById_fail (store : Store) (now : Nat) (id : String) (patch : Doc)
    (h : isValidObjectId id = false ∨ assocGet store id = none) :
    updateReceiptById store now id patch = (store, false) := by
  by_cases hne : id = ""
  · simp [updateReceiptById, hne]
  · cases h with
    | inl hv => simp [updateReceiptById, hne, hv]
    | inr hd =>
      cases hv : isValidObjectId id with
      | false => simp [updateReceiptById, hne, hv]
      | true => simp [updateReceiptById, hne, hv, hd]


theorem updateSetDoc_preserves_createdAt (doc : Doc) (now : Nat) (patch : Doc)
    (t : Nat) (h : assocGet doc "createdAt" = some (Value.date t)) :
    assocGet (updateSetDoc doc now patch) "createdAt" = some (Value.date t) := by
  have ht : truthyO (assocGet doc "createdAt") = true := by rw [h]; rfl
  rw [updateSetDoc_get_createdAt_truthy doc now patch ht, h]

theorem not_true_eq_false {b : Bool} (h : ¬ b = true) : b = false := by
  cases b
  · rfl
  · exact absurd rfl h

/-- A single `updateReceiptById` call — whatever its target and patch —
keeps the `createdAt` of any document that carries a Date there. -/
theorem updateReceiptById_preserves_createdAt (store : Store) (now : Nat)
    (id2 : String) (patch : Doc) (id : String) (doc : Doc) (t : Nat)
    (hd : assocGet store id = some doc)
    (hc : assocGet doc "createdAt" = some (Value.date t)) :
    ∃ d2, assocGet (updateReceiptById store now id2 patch).1 id = some d2 ∧
      assocGet d2 "createdAt" = some (Value.date t) := by
  by_cases hv : isValidObjectId id2 = true
  · cases hdoc2 : assocGet store id2 with
    | none =>
      rw [updateReceiptById_fail store now id2 patch (Or.inr hdoc2)]
      exact ⟨doc, hd, hc⟩
    | some doc2 =>
      rw [updateReceiptById_found store now id2 patch doc2 hv hdoc2]
      by_cases heq : id = id2
      · subst heq
        rw [hd] at hdoc2
        cases hdoc2
        refine ⟨updateSetDoc doc now patch, ?_,
          updateSetDoc_preserves_createdAt doc now patch t hc⟩
        show assocGet (replaceStore store id (updateSetDoc doc now patch)) id = _
        rw [assocGet_replaceStore_eq, hd]
        rfl
      · refine ⟨doc, ?_, hc⟩
        show assocGet (replaceStore store id2 (updateSetDoc doc2 now patch)) id = some doc
        rw [assocGet_replaceStore_other store id2 _ id heq, hd]
  · rw [updateReceiptById_fail store now id2 patch (Or.inl (not_true_eq_false hv))]
    exact ⟨doc, hd, hc⟩

/-- Every control path of the update handler leaves the store untouched or
routes it through one `updateReceiptById` call. -/
theorem updateHandler_store_cases (verify : String → TokenOutcome) (store : Store)
    (now : Nat) (req : HRequest) :
    (updateReceiptByIdHandler verify store now req).2.2 = store ∨
    ∃ id2 patch2, (updateReceiptByIdHandler verify store now req).2.2 =
      (updateReceiptById store now id2 patch2).1 := by
  simp only [updateReceiptByIdHandler]
  repeat' split
  all_goals first
    | exact Or.inl rfl
    | exact Or.inr ⟨_, _, rfl⟩

/-! ## Claim theorems -/

/-- Claim C1: for every id and patch, the store adapter updateById returns
false when the id does not parse as an ObjectId or no document matches;
otherwise it performs a top-level `$set`-style merge (patch keys overwrite,
absent keys untouched), force-restores the original createdAt from the
existing document when one exists, sets updatedAt to the current time, and
returns true even when nothing changed, leaving other documents alone. -/
theorem c1_updateById_contract (store : Store) (now : Nat) (id : String) (patch : Doc) :
    ((isValidObjectId id = false ∨ assocGet store id = none) →
      updateReceiptById store now id patch = (store, false)) ∧
    (∀ doc, isValidObjectId id = true → assocGet store id = some doc →
      (updateReceiptById store now id patch).2 = true ∧
      ∃ d2, assocGet (updateReceiptById store now id patch).1 id = some d2 ∧
        (∀ k, k ≠ "updatedAt" → k ≠ "createdAt" →
          assocGet d2 k = altO (assocGet patch k) (assocGet doc k)) ∧
        assocGet d2 "updatedAt" = some (Value.date now) ∧
        (truthyO (assocGet doc "createdAt") = true →
          assocGet d2 "createdAt" = assocGet doc "createdAt") ∧
        (∀ k2, k2 ≠ id →
          assocGet (updateReceiptById store now id patch).1 k2 = assocGet store k2)) := by
  constructor
  · exact updateReceiptById_fail store now id patch
  · intro doc hv hd
    rw [updateReceiptById_found store now id patch doc hv hd]
    refine ⟨rfl, updateSetDoc doc now patch, ?_, updateSetDoc_get_other doc now patch,
      updateSetDoc_get_updatedAt doc now patch,
      updateSetDoc_get_createdAt_truthy doc now patch, ?_⟩
    · show assocGet (replaceStore store id (updateSetDoc doc now patch)) id = _
      rw [assocGet_replaceStore_eq, hd]
      rfl
    · intro k2 hk2
      exact assocGet_replaceStore_other store id _ k2 hk2

theorem c1_witness :
    (updateReceiptById
      [("507f1f77bcf86cd799439011", [("a", Value.num 1), ("createdAt", Value.date 3)])]
      7 "507f1f77bcf86cd799439011" [("a", Value.num 2), ("createdAt", Value.date 99)]).2
      = true :=
  ((c1_updateById_contract
      [("507f1f77bcf86cd799439011", [("a", Value.num 1), ("createdAt", Value.date 3)])]
      7 "507f1f77bcf86cd799439011" [("a", Value.num 2), ("createdAt", Value.date 99)]).2
    [("a", Value.num 1), ("createdAt", Value.date 3)] (by decide) rfl).1

/-- Claim C2: a stored document with a (Date-valued) createdAt keeps that
createdAt across every updateById call — and hence across every update
handler call — even when the patch carries its own createdAt key. -/
theorem c2_createdAt_immutable (store : Store) (now : Nat) (id : String)
    (doc : Doc) (t : Nat)
    (hd : assocGet store id = some doc)
    (hc : assocGet doc "createdAt" = some (Value.date t)) :
    (∀ id2 patch, ∃ d2,
        assocGet (updateReceiptById store now id2 patch).1 id = some d2 ∧
        assocGet d2 "createdAt" = some (Value.date t)) ∧
    (∀ verify req, ∃ d2,
        assocGet (updateReceiptByIdHandler verify store now req).2.2 id = some d2 ∧
        assocGet d2 "createdAt" = some (Value.date t)) := by
  constructor
  · intro id2 patch
    exact updateReceiptById_preserves_createdAt store now id2 patch id doc t hd hc
  · intro verify req
    cases updateHandler_store_cases verify store now req with
    | inl h =>
      rw [h]
      exact ⟨doc, hd, hc⟩
    | inr h =>
      obtain ⟨id2, p2, h⟩ := h
      rw [h]
      exact updateReceiptById_preserves_createdAt store now id2 p2 id doc t hd hc

theorem c2_witness :
    ∃ d2, assocGet (updateReceiptById
      [("507f1f77bcf86cd799439011", [("createdAt", Value.date 3)])]
      7 "507f1f77bcf86cd799439011" [("createdAt", Value.date 99)]).1
      "507f1f77bcf86cd799439011" = some d2 ∧
      assocGet d2 "createdAt" = some (Value.date 3) :=
  (c2_createdAt_immutable
    [("507f1f77bcf86cd799439011", [("createdAt", Value.date 3)])]
    7 "507f1f77bcf86cd799439011"
    [("createdAt", Value.date 3)] 3 rfl rfl).1 "507f1f77bcf86cd799439011"
    [("createdAt", Value.date 99)]

/-- Claim C7 (counterexample): on the empty identifier, the store adapter
getById does not return the "not found" result — it throws (the input
validation error is rethrown by its catch block), contradicting the claim
that unparseable identifiers are never an exception to the caller. -/
theorem c7_counterexample :
    getReceiptById ([] : Store) "" = Except.error "Invalid receipt ID" ∧
    getReceiptById ([] : Store) "" ≠ Except.ok none :=
  ⟨rfl, fun h => Except.noConfusion h⟩

/-- Claim C7 (amended): for every non-empty id, getById never throws: it
returns null when the id is not a valid ObjectId or no document matches,
and the full stored document otherwise. -/
theorem c7_getById_not_found (store : Store) (id : String) (h : id ≠ "") :
    (∃ r, getReceiptById store id = Except.ok r) ∧
    (isValidObjectId id = false → getReceiptById store id = Except.ok none) ∧
    (isValidObjectId id = true → getReceiptById store id = Except.ok (assocGet store id)) := by
  refine ⟨?_, ?_, ?_⟩
  · cases hv : isValidObjectId id with
    | false => exact ⟨none, by simp [getReceiptById, h, hv]⟩
    | true => exact ⟨assocGet store id, by simp [getReceiptById, h, hv]⟩
  · intro hv
    simp [getReceiptById, h, hv]
  · intro hv
    simp [getReceiptById, h, hv]

theorem c7_witness :
    getReceiptById ([] : Store) "not-a-hex-objectid-value" = Except.ok none :=
  (c7_getById_not_found [] "not-a-hex-objectid-value" (by decide)).2.1 (by decide)


theorem assocGet_append_right_some {α : Type} {b : List (String × α)} {k : String}
    {v : α} (a : List (String × α)) (h : assocGet b k = some v) :
    assocGet (a ++ b) k = some v := by
  rw [assocGet_append, h, altO_some]

theorem assocGet_singleton_eq {α : Type} (k : String) (v : α) :
    assocGet [(k, v)] k = some v := by
  simp [assocGet]

/-- Claim C8: the identity verifier never surfaces an exception: absent or
malformed Authorization headers, empty bearer tokens, SDK failures and
falsy decoded subjects all collapse to the unauthenticated result `none`,
and a successful verification yields the subject identifier. -/
theorem c8_verifyAuthToken_contract (verify : String → TokenOutcome)
    (authHeader : Option String) :
    (authHeader = none → verifyAuthToken verify authHeader = none) ∧
    (∀ h, authHeader = some h → strStarts h "Bearer " = false →
      verifyAuthToken verify authHeader = none) ∧
    (∀ h, authHeader = some h → extractBearerToken h = "" →
      verifyAuthToken verify authHeader = none) ∧
    (∀ h msg, authHeader = some h →
      verify (extractBearerToken h) = TokenOutcome.sdkError msg →
      verifyAuthToken verify authHeader = none) ∧
    (∀ h uid, authHeader = some h → strStarts h "Bearer " = true →
      extractBearerToken h ≠ "" →
      verify (extractBearerToken h) = TokenOutcome.decoded uid →
      uid ≠ "" → verifyAuthToken verify authHeader = some uid) := by
  refine ⟨?_, ?_, ?_, ?_, ?_⟩
  · intro h
    subst h
    rfl
  · intro h hh hs
    subst hh
    simp [verifyAuthToken, hs]
  · intro h hh ht
    subst hh
    by_cases he : (h = "" || !(strStarts h "Bearer ")) = true
    · simp [verifyAuthToken, he]
    · simp [verifyAuthToken, he, ht]
  · intro h msg hh hv
    subst hh
    by_cases he : (h = "" || !(strStarts h "Bearer ")) = true
    · simp [verifyAuthToken, he]
    · by_cases ht : extractBearerToken h = ""
      · simp [verifyAuthToken, he, ht]
      · simp [verifyAuthToken, he, ht, hv]
  · intro h uid hh hs htok hv huid
    subst hh
    have hne : ¬ h = "" := by
      intro he
      subst he
      exact absurd hs (by decide)
    simp [verifyAuthToken, hne, hs, htok, hv, huid]

theorem c8_witness :
    verifyAuthToken
      (fun t => if t = "tok1" then TokenOutcome.decoded "user1"
                else TokenOutcome.sdkError "bad token")
      (some "Bearer tok1") = some "user1" :=
  (c8_verifyAuthToken_contract
      (fun t => if t = "tok1" then TokenOutcome.decoded "user1"
                else TokenOutcome.sdkError "bad token")
      (some "Bearer tok1")).2.2.2.2 "Bearer tok1" "user1" rfl (by decide)
    (by decide) (by decide) (by decide)

/-- Claim C10: an authenticated PUT with a body that lacks the
processingMetadata key, aimed at an existing document, makes the handler
dereference the absent field: the outer catch turns the TypeError into a
500 with success:false, and the store is left unchanged. -/
theorem c10_missing_metadata_500 (verify : String → TokenOutcome) (store : Store)
    (now : Nat) (hd : Option String) (uid id : String) (body : Doc) (doc : Doc)
    (ha : verifyAuthToken verify hd = some uid)
    (hid : isValidObjectId id = true)
    (hdoc : assocGet store id = some doc)
    (hnm : assocGet body "processingMetadata" = none) :
    updateReceiptByIdHandler verify store now ⟨"PUT", hd, some id, some body⟩ =
      (500,
       mkErr "Failed to update receipt: Cannot read properties of undefined (reading userId)",
       store) := by
  have hne : id ≠ "" := isValidObjectId_ne_empty hid
  have hget : getReceiptById store id = Except.ok (some doc) := by
    simp [getReceiptById, hne, hid, hdoc]
  simp [updateReceiptByIdHandler, ha, hget, hnm]

theorem c10_witness :
    updateReceiptByIdHandler
      (fun _ => TokenOutcome.decoded "user1")
      [("507f1f77bcf86cd799439011", [("createdAt", Value.date 3)])]
      7 ⟨"PUT", some "Bearer tok1", some "507f1f77bcf86cd799439011",
          some [("originalData", Value.obj [])]⟩ =
      (500,
       mkErr "Failed to update receipt: Cannot read properties of undefined (reading userId)",
       [("507f1f77bcf86cd799439011", [("createdAt", Value.date 3)])]) :=
  c10_missing_metadata_500 (fun _ => TokenOutcome.decoded "user1")
    [("507f1f77bcf86cd799439011", [("createdAt", Value.date 3)])]
    7 (some "Bearer tok1") "user1" "507f1f77bcf86cd799439011"
    [("originalData", Value.obj [])] [("createdAt", Value.date 3)]
    (by decide) (by decide) rfl rfl


/-- The metadata object the update handler builds from a truthy
caller-supplied `processingMetadata`. -/
def overwrittenMeta (m : Value) (now : Nat) (uid : String) : Value :=
  Value.obj (spreadFields m ++
    [("updatedAt", Value.date now), ("userId", Value.str uid),
     ("updatedBy", Value.arr [Value.str uid])])

/-- Full characterisation of the update handler's success path: PUT,
authenticated, body present with truthy processingMetadata, valid id,
document present.  The stored document becomes the `$set` merge of the
patch with its processingMetadata replaced by the overwritten one. -/
theorem updateHandler_success (verify : String → TokenOutcome) (store : Store)
    (now : Nat) (hd : Option String) (uid id : String) (patch : Doc)
    (doc : Doc) (m : Value)
    (ha : verifyAuthToken verify hd = some uid)
    (hid : isValidObjectId id = true)
    (hdoc : assocGet store id = some doc)
    (hm : assocGet patch "processingMetadata" = some m)
    (hmt : truthy m = true) :
    updateReceiptByIdHandler verify store now ⟨"PUT", hd, some id, some patch⟩ =
      (200, [("id", Value.str id), ("success", Value.bool true)],
        replaceStore store id (updateSetDoc doc now
          (patch ++ [("processingMetadata", overwrittenMeta m now uid)]))) := by
  have hne : id ≠ "" := isValidObjectId_ne_empty hid
  have hget : getReceiptById store id = Except.ok (some doc) := by
    simp [getReceiptById, hne, hid, hdoc]
  have hupd := updateReceiptById_found store now id
    (patch ++ [("processingMetadata", overwrittenMeta m now uid)]) doc hid hdoc
  cases m with
  | null => exact absurd hmt (by decide)
  | bool b =>
    simp only [updateReceiptByIdHandler, ha, hget, hm, overwrittenMeta] at hupd ⊢
    rw [if_pos hmt, hupd]
    rfl
  | num n =>
    simp only [updateReceiptByIdHandler, ha, hget, hm, overwrittenMeta] at hupd ⊢
    rw [if_pos hmt, hupd]
    rfl
  | str s =>
    simp only [updateReceiptByIdHandler, ha, hget, hm, overwrittenMeta] at hupd ⊢
    rw [if_pos hmt, hupd]
    rfl
  | date t =>
    simp only [updateReceiptByIdHandler, ha, hget, hm, overwrittenMeta] at hupd ⊢
    rw [if_pos hmt, hupd]
    rfl
  | arr xs =>
    simp only [updateReceiptByIdHandler, ha, hget, hm, overwrittenMeta] at hupd ⊢
    rw [if_pos hmt, hupd]
    rfl
  | obj fs =>
    simp only [updateReceiptByIdHandler, ha, hget, hm, overwrittenMeta] at hupd ⊢
    rw [if_pos hmt, hupd]
    rfl


/-- Claim C5: whenever an update of an existing document succeeds with a
caller-supplied (truthy, i.e. present) processingMetadata in the patch, the
persisted processingMetadata carries `userId` equal to the current caller
and `updatedBy` equal to the single-element sequence of the current caller,
regardless of what userId or updatedBy the patch supplied there. -/
theorem c5_metadata_overwritten (verify : String → TokenOutcome) (store : Store)
    (now : Nat) (hd : Option String) (uid id : String) (patch : Doc)
    (doc : Doc) (m : Value)
    (ha : verifyAuthToken verify hd = some uid)
    (hid : isValidObjectId id = true)
    (hdoc : assocGet store id = some doc)
    (hm : assocGet patch "processingMetadata" = some m)
    (hmt : truthy m = true) :
    (updateReceiptByIdHandler verify store now ⟨"PUT", hd, some id, some patch⟩).1 = 200 ∧
    ∃ d2, assocGet
        (updateReceiptByIdHandler verify store now ⟨"PUT", hd, some id, some patch⟩).2.2
        id = some d2 ∧
      ∃ mfs, assocGet d2 "processingMetadata" = some (Value.obj mfs) ∧
        assocGet mfs "userId" = some (Value.str uid) ∧
        assocGet mfs "updatedBy" = some (Value.arr [Value.str uid]) := by
  rw [updateHandler_success verify store now hd uid id patch doc m ha hid hdoc hm hmt]
  refine ⟨rfl, updateSetDoc doc now
    (patch ++ [("processingMetadata", overwrittenMeta m now uid)]), ?_, ?_⟩
  · show assocGet (replaceStore store id _) id = _
    rw [assocGet_replaceStore_eq, hdoc]
    rfl
  · refine ⟨spreadFields m ++
      [("updatedAt", Value.date now), ("userId", Value.str uid),
       ("updatedBy", Value.arr [Value.str uid])], ?_, ?_, ?_⟩
    · rw [updateSetDoc_get_other _ _ _ _ (by decide) (by decide)]
      have hpm : assocGet (patch ++ [("processingMetadata", overwrittenMeta m now uid)])
          "processingMetadata" = some (overwrittenMeta m now uid) :=
        assocGet_append_right_some patch (assocGet_singleton_eq _ _)
      rw [hpm, altO_some]
      rfl
    · have h1 : assocGet [("updatedAt", Value.date now), ("userId", Value.str uid),
          ("updatedBy", Value.arr [Value.str uid])] "userId" = some (Value.str uid) := by
        simp [assocGet]
      exact assocGet_append_right_some (spreadFields m) h1
    · have h2 : assocGet [("updatedAt", Value.date now), ("userId", Value.str uid),
          ("updatedBy", Value.arr [Value.str uid])] "updatedBy" =
          some (Value.arr [Value.str uid]) := by
        simp [assocGet]
      exact assocGet_append_right_some (spreadFields m) h2

theorem c5_witness :
    (updateReceiptByIdHandler (fun _ => TokenOutcome.decoded "bob")
      [("507f1f77bcf86cd799439011", [("createdAt", Value.date 3)])] 7
      ⟨"PUT", some "Bearer t", some "507f1f77bcf86cd799439011",
        some [("processingMetadata",
          Value.obj [("userId", Value.str "alice"),
                     ("updatedBy", Value.arr [Value.str "alice"])])]⟩).1 = 200 ∧
    ∃ d2, assocGet (updateReceiptByIdHandler (fun _ => TokenOutcome.decoded "bob")
      [("507f1f77bcf86cd799439011", [("createdAt", Value.date 3)])] 7
      ⟨"PUT", some "Bearer t", some "507f1f77bcf86cd799439011",
        some [("processingMetadata",
          Value.obj [("userId", Value.str "alice"),
                     ("updatedBy", Value.arr [Value.str "alice"])])]⟩).2.2
        "507f1f77bcf86cd799439011" = some d2 ∧
      ∃ mfs, assocGet d2 "processingMetadata" = some (Value.obj mfs) ∧
        assocGet mfs "userId" = some (Value.str "bob") ∧
        assocGet mfs "updatedBy" = some (Value.arr [Value.str "bob"]) :=
  c5_metadata_overwritten (fun _ => TokenOutcome.decoded "bob")
    [("507f1f77bcf86cd799439011", [("createdAt", Value.date 3)])] 7
    (some "Bearer t") "bob" "507f1f77bcf86cd799439011"
    [("processingMetadata",
      Value.obj [("userId", Value.str "alice"),
                 ("updatedBy", Value.arr [Value.str "alice"])])]
    [("createdAt", Value.date 3)]
    (Value.obj [("userId", Value.str "alice"),
                ("updatedBy", Value.arr [Value.str "alice"])])
    (by decide) (by decide) rfl rfl (by decide)


theorem validateReceiptData_true (data : Doc)
    (h1 : truthyO (assocGet data "originalData") = true ∨
          truthyO (assocGet data "processedData") = true ∨
          truthyO (assocGet data "shareData") = true)
    (h2 : truthyO (assocGet data "processedData") = true →
          hasItemsArray ((assocGet data "processedData").getD Value.null) = true)
    (h3 : truthyO (assocGet data "shareData") = true →
          hasItemsArray ((assocGet data "shareData").getD Value.null) = true) :
    validateReceiptData data = true := by
  have hB : (truthyO (assocGet data "processedData") &&
      !(hasItemsArray ((assocGet data "processedData").getD Value.null))) = false := by
    cases hp : truthyO (assocGet data "processedData")
    · simp
    · simp [h2 hp]
  have hC : (truthyO (assocGet data "shareData") &&
      !(hasItemsArray ((assocGet data "shareData").getD Value.null))) = false := by
    cases hs : truthyO (assocGet data "shareData")
    · simp
    · simp [h3 hs]
  have hA : (!(truthyO (assocGet data "originalData")) &&
      !(truthyO (assocGet data "processedData")) &&
      !(truthyO (assocGet data "shareData"))) = false := by
    rcases h1 with h | h | h <;> simp [h]
  simp [validateReceiptData, hA, hB, hC]

theorem validateReceiptData_false (data : Doc)
    (h : (truthyO (assocGet data "originalData") = false ∧
          truthyO (assocGet data "processedData") = false ∧
          truthyO (assocGet data "shareData") = false) ∨
         (truthyO (assocGet data "processedData") = true ∧
          hasItemsArray ((assocGet data "processedData").getD Value.null) = false) ∨
         (truthyO (assocGet data "shareData") = true ∧
          hasItemsArray ((assocGet data "shareData").getD Value.null) = false)) :
    validateReceiptData data = false := by
  rcases h with ⟨h1, h2, h3⟩ | ⟨h1, h2⟩ | ⟨h1, h2⟩
  · simp [validateReceiptData, h1, h2, h3]
  · simp [validateReceiptData, h1, h2]
  · cases hB : (truthyO (assocGet data "processedData") &&
        !(hasItemsArray ((assocGet data "processedData").getD Value.null))) <;>
      simp [validateReceiptData, h1, h2, hB]

/-- Claim C9 (counterexample): a request to the save endpoint with an absent
bearer credential but the wrong HTTP method is answered 405, not 401 — the
method check runs before authentication. -/
theorem c9_counterexample :
    (saveReceipt (fun _ => TokenOutcome.sdkError "no verification")
      ([] : Store) 0 "507f1f77bcf86cd799439011" ⟨"GET", none, none, none⟩).1 = 405 ∧
    (saveReceipt (fun _ => TokenOutcome.sdkError "no verification")
      ([] : Store) 0 "507f1f77bcf86cd799439011" ⟨"GET", none, none, none⟩).1 ≠ 401 :=
  ⟨rfl, by decide⟩

/-- Claim C9 (amended): a request carrying each endpoint's designated method
whose bearer credential is absent or invalid is answered 401 with a
success:false body, the store is unchanged, and no extraction call is made
(wrong-method requests are instead answered 405 before authentication, also
without side effects). -/
theorem c9_unauthenticated_401 (verify : String → TokenOutcome) (store : Store)
    (now : Nat) (freshId : String) (gemini : Value → Value → Except String Doc) :
    (∀ req : HRequest, req.method = "POST" →
      verifyAuthToken verify req.authHeader = none →
      saveReceipt verify store now freshId req =
        (401, mkErr "Unauthorized: Authentication required", store)) ∧
    (∀ req : HRequest, req.method = "PUT" →
      verifyAuthToken verify req.authHeader = none →
      updateReceiptByIdHandler verify store now req =
        (401, mkErr "Unauthorized: Authentication required", store)) ∧
    (∀ req : HRequest, req.method = "GET" →
      verifyAuthToken verify req.authHeader = none →
      loadReceiptById verify store req =
        (401, mkErr "Unauthorized: Authentication required")) ∧
    (∀ req : HRequest, req.method = "POST" →
      verifyAuthToken verify req.authHeader = none →
      processReceipt verify gemini req =
        (401, mkErr "Unauthorized: Authentication required", false)) ∧
    assocGet (mkErr "Unauthorized: Authentication required") "success" =
      some (Value.bool false) := by
  refine ⟨?_, ?_, ?_, ?_, by simp [mkErr, assocGet]⟩
  · intro req hm hauth
    simp [saveReceipt, hm, hauth]
  · intro req hm hauth
    simp [updateReceiptByIdHandler, hm, hauth]
  · intro req hm hauth
    simp [loadReceiptById, hm, hauth]
  · intro req hm hauth
    simp [processReceipt, hm, hauth]

theorem c9_witness :
    saveReceipt (fun _ => TokenOutcome.sdkError "down") ([] : Store) 0
      "507f1f77bcf86cd799439011" ⟨"POST", some "Bearer bad", none, none⟩ =
      (401, mkErr "Unauthorized: Authentication required", ([] : Store)) :=
  (c9_unauthenticated_401 (fun _ => TokenOutcome.sdkError "down") [] 0
    "507f1f77bcf86cd799439011" (fun _ _ => Except.error "unused")).1
    ⟨"POST", some "Bearer bad", none, none⟩ rfl (by decide)


/-- Claim C4: an authenticated POST to save succeeds with a non-empty id
and success:true exactly when the payload has at least one (truthy) of
originalData/processedData/shareData and an items array wherever
processedData/shareData is present; a payload missing all three, or with
processedData/shareData lacking an items array, is answered 400 with
success:false.  (The success branch additionally assumes the
processingMetadata stamping step does not throw — `stampMetadata` yields a
document — which holds for every §3-typed payload, where processingMetadata
is an object when present.) -/
theorem c4_save_validation (verify : String → TokenOutcome) (store : Store)
    (now : Nat) (freshId : String) (hd : Option String) (uid : String)
    (payload : Doc)
    (ha : verifyAuthToken verify hd = some uid)
    (hfr : freshId ≠ "") :
    (∀ payload2,
      (truthyO (assocGet payload "originalData") = true ∨
       truthyO (assocGet payload "processedData") = true ∨
       truthyO (assocGet payload "shareData") = true) →
      (truthyO (assocGet payload "processedData") = true →
        hasItemsArray ((assocGet payload "processedData").getD Value.null) = true) →
      (truthyO (assocGet payload "shareData") = true →
        hasItemsArray ((assocGet payload "shareData").getD Value.null) = true) →
      stampMetadata payload now uid = some payload2 →
      saveReceipt verify store now freshId ⟨"POST", hd, none, some payload⟩ =
        (200, [("id", Value.str freshId), ("success", Value.bool true)],
          (createReceiptDocument store now freshId payload2).1)) ∧
    (((truthyO (assocGet payload "originalData") = false ∧
       truthyO (assocGet payload "processedData") = false ∧
       truthyO (assocGet payload "shareData") = false) ∨
      (truthyO (assocGet payload "processedData") = true ∧
       hasItemsArray ((assocGet payload "processedData").getD Value.null) = false) ∨
      (truthyO (assocGet payload "shareData") = true ∧
       hasItemsArray ((assocGet payload "shareData").getD Value.null) = false)) →
      saveReceipt verify store now freshId ⟨"POST", hd, none, some payload⟩ =
        (400, mkErr "Invalid receipt data structure. Missing required fields", store)) := by
  constructor
  · intro payload2 h1 h2 h3 hstamp
    have hval : validateReceiptData payload = true :=
      validateReceiptData_true payload h1 h2 h3
    simp [saveReceipt, ha, hval, hstamp, createReceiptDocument, hfr]
  · intro h
    have hval : validateReceiptData payload = false :=
      validateReceiptData_false payload h
    simp [saveReceipt, ha, hval]

theorem c4_witness :
    (saveReceipt (fun _ => TokenOutcome.decoded "user1") ([] : Store) 5
      "507f1f77bcf86cd799439011"
      ⟨"POST", some "Bearer t", none,
        some [("processedData", Value.obj [("items", Value.arr [])])]⟩).1 = 200 ∧
    (saveReceipt (fun _ => TokenOutcome.decoded "user1") ([] : Store) 5
      "507f1f77bcf86cd799439011"
      ⟨"POST", some "Bearer t", none,
        some [("processedData", Value.obj [("meta_data", Value.obj [])])]⟩).1 = 400 := by
  constructor
  · rw [(c4_save_validation (fun _ => TokenOutcome.decoded "user1") [] 5
      "507f1f77bcf86cd799439011" (some "Bearer t") "user1"
      [("processedData", Value.obj [("items", Value.arr [])])]
      (by decide) (by decide)).1
      ([("processedData", Value.obj [("items", Value.arr [])]),
        ("processingMetadata", defaultMetadata 5 "user1")])
      (Or.inr (Or.inl (by decide))) (by decide) (by decide) rfl]
  · rw [(c4_save_validation (fun _ => TokenOutcome.decoded "user1") [] 5
      "507f1f77bcf86cd799439011" (some "Bearer t") "user1"
      [("processedData", Value.obj [("meta_data", Value.obj [])])]
      (by decide) (by decide)).2
      (Or.inr (Or.inl ⟨by decide, by decide⟩))]


theorem hasItemsArray_obj {v : Value} (h : hasItemsArray v = true) :
    ∃ fs, v = Value.obj fs := by
  cases v with
  | obj fs => exact ⟨fs, rfl⟩
  | null => exact absurd h (by simp [hasItemsArray, jsField])
  | bool b => exact absurd h (by simp [hasItemsArray, jsField])
  | num n => exact absurd h (by simp [hasItemsArray, jsField])
  | str s => exact absurd h (by simp [hasItemsArray, jsField])
  | date t => exact absurd h (by simp [hasItemsArray, jsField])
  | arr xs => exact absurd h (by simp [hasItemsArray, jsField])

theorem stampMetadata_shape {payload : Doc} {now : Nat} {uid : String}
    {payload2 : Doc} (h : stampMetadata payload now uid = some payload2) :
    ∃ X, payload2 = payload ++ [("processingMetadata", X)] := by
  unfold stampMetadata at h
  split at h
  · exact ⟨_, (Option.some.inj h).symm⟩
  · split at h
    · split at h
      · exact ⟨_, (Option.some.inj h).symm⟩
      · exact ⟨_, (Option.some.inj h).symm⟩
      · exact ⟨_, (Option.some.inj h).symm⟩
      · exact Option.noConfusion h
    · exact ⟨_, (Option.some.inj h).symm⟩

/-- The save handler's success path, with the resulting store spelled out. -/
theorem saveReceipt_success (verify : String → TokenOutcome) (store : Store)
    (now : Nat) (freshId : String) (hd : Option String) (uid : String)
    (payload payload2 : Doc)
    (ha : verifyAuthToken verify hd = some uid)
    (hfr : freshId ≠ "")
    (hval : validateReceiptData payload = true)
    (hstamp : stampMetadata payload now uid = some payload2) :
    saveReceipt verify store now freshId ⟨"POST", hd, none, some payload⟩ =
      (200, [("id", Value.str freshId), ("success", Value.bool true)],
        store ++ [(freshId, payload2 ++
          [("createdAt", Value.date now), ("updatedAt", Value.date now),
           ("_id", Value.str freshId)])]) := by
  simp [saveReceipt, ha, hval, hstamp, createReceiptDocument, hfr]

theorem assocGet_single_ne {α : Type} (k k1 : String) (v1 : α) (h1 : k ≠ k1) :
    assocGet [(k1, v1)] k = (none : Option α) := by
  simp [assocGet, Ne.symm h1]

theorem assocGet_append_one_ne {α : Type} (d : List (String × α)) (key k : String)
    (w : α) (hk : k ≠ key) : assocGet (d ++ [(key, w)]) k = assocGet d k := by
  rw [assocGet_append, assocGet_single_ne k key w hk, altO_none_left]

/-- `injectDocId` on a field that is an object, absent, or falsy: it
succeeds, only the named field changes, an object field gains the
documentId, anything else is untouched. -/
theorem injectDocId_cases (d : Doc) (key id : String)
    (h : (∃ fs, assocGet d key = some (Value.obj fs)) ∨
         truthyO (assocGet d key) = false) :
    ∃ d1, injectDocId d key id = some d1 ∧
      (∀ k, k ≠ key → assocGet d1 k = assocGet d k) ∧
      (∀ fs, assocGet d key = some (Value.obj fs) →
        assocGet d1 key = some (Value.obj (fs ++ [("documentId", Value.str id)]))) ∧
      (truthyO (assocGet d key) = false → assocGet d1 key = assocGet d key) := by
  rcases h with ⟨fs, hfs⟩ | hf
  · refine ⟨d ++ [(key, Value.obj (fs ++ [("documentId", Value.str id)]))],
      ?_, ?_, ?_, ?_⟩
    · simp [injectDocId, hfs, truthy]
    · intro k hk
      exact assocGet_append_one_ne d key k _ hk
    · intro fs2 hfs2
      rw [hfs] at hfs2
      cases Value.obj.inj (Option.some.inj hfs2)
      exact assocGet_append_right_some d (assocGet_singleton_eq _ _)
    · intro hfalse
      rw [hfs] at hfalse
      simp [truthyO, truthy] at hfalse
  · have hid : injectDocId d key id = some d := by
      cases hv : assocGet d key with
      | none => simp [injectDocId, hv]
      | some v =>
        rw [hv] at hf
        have hfv : truthy v = false := hf
        simp [injectDocId, hv, hfv]
    refine ⟨d, hid, fun k _ => rfl, ?_, fun _ => rfl⟩
    intro fs2 hfs2
    rw [hfs2] at hf
    simp [truthyO, truthy] at hf

/-- The load handler's success path, given that shareData and processedData
are each an object, absent, or falsy in the stored document. -/
theorem loadReceiptById_success (verify : String → TokenOutcome) (store : Store)
    (hd : Option String) (uid id : String) (doc : Doc)
    (ha : verifyAuthToken verify hd = some uid)
    (hid : isValidObjectId id = true)
    (hdoc : assocGet store id = some doc)
    (hsh : (∃ fs, assocGet doc "shareData" = some (Value.obj fs)) ∨
           truthyO (assocGet doc "shareData") = false)
    (hpd : (∃ fs, assocGet doc "processedData" = some (Value.obj fs)) ∨
           truthyO (assocGet doc "processedData") = false) :
    ∃ d2, loadReceiptById verify store ⟨"GET", hd, some id, none⟩ =
        (200, d2 ++ [("documentId", Value.str id), ("success", Value.bool true)]) ∧
      (∀ k, k ≠ "shareData" → k ≠ "processedData" → assocGet d2 k = assocGet doc k) ∧
      (∀ fs, assocGet doc "shareData" = some (Value.obj fs) →
        assocGet d2 "shareData" = some (Value.obj (fs ++ [("documentId", Value.str id)]))) ∧
      (truthyO (assocGet doc "shareData") = false →
        assocGet d2 "shareData" = assocGet doc "shareData") ∧
      (∀ fs, assocGet doc "processedData" = some (Value.obj fs) →
        assocGet d2 "processedData" = some (Value.obj (fs ++ [("documentId", Value.str id)]))) ∧
      (truthyO (assocGet doc "processedData") = false →
        assocGet d2 "processedData" = assocGet doc "processedData") := by
  have hne : id ≠ "" := isValidObjectId_ne_empty hid
  have hget : getReceiptById store id = Except.ok (some doc) := by
    simp [getReceiptById, hne, hid, hdoc]
  obtain ⟨dsh, hdsh, hshOther, hshObj, hshFalsy⟩ := injectDocId_cases doc "shareData" id hsh
  have hpd2 : (∃ fs, assocGet dsh "processedData" = some (Value.obj fs)) ∨
      truthyO (assocGet dsh "processedData") = false := by
    rw [hshOther "processedData" (by decide)]
    exact hpd
  obtain ⟨dpd, hdpd, hpdOther, hpdObj, hpdFalsy⟩ :=
    injectDocId_cases dsh "processedData" id hpd2
  refine ⟨dpd, ?_, ?_, ?_, ?_, ?_, ?_⟩
  · simp [loadReceiptById, ha, hget, hdsh, hdpd]
  · intro k hk1 hk2
    rw [hpdOther k hk2, hshOther k hk1]
  · intro fs hfs
    rw [hpdOther "shareData" (by decide)]
    exact hshObj fs hfs
  · intro hfalse
    rw [hpdOther "shareData" (by decide)]
    exact hshFalsy hfalse
  · intro fs hfs
    refine hpdObj fs ?_
    rw [hshOther "processedData" (by decide)]
    exact hfs
  · intro hfalse
    have hx := hpdFalsy (by rw [hshOther "processedData" (by decide)]; exact hfalse)
    rw [hx, hshOther "processedData" (by decide)]


/-- Claim C3: for every valid authenticated payload, loading the identifier
returned by save yields a 200 response whose originalData equals what was
saved, whose processedData and shareData equal what was saved plus an
injected documentId when present (truthy — validation forces them to be
objects then), and which carries a top-level documentId and success:true. -/
theorem c3_load_after_save (verify : String → TokenOutcome) (store : Store)
    (now : Nat) (freshId : String) (hd : Option String) (uid : String)
    (payload payload2 : Doc)
    (ha : verifyAuthToken verify hd = some uid)
    (hidv : isValidObjectId freshId = true)
    (h1 : truthyO (assocGet payload "originalData") = true ∨
          truthyO (assocGet payload "processedData") = true ∨
          truthyO (assocGet payload "shareData") = true)
    (h2 : truthyO (assocGet payload "processedData") = true →
          hasItemsArray ((assocGet payload "processedData").getD Value.null) = true)
    (h3 : truthyO (assocGet payload "shareData") = true →
          hasItemsArray ((assocGet payload "shareData").getD Value.null) = true)
    (hstamp : stampMetadata payload now uid = some payload2) :
    assocGet (saveReceipt verify store now freshId
        ⟨"POST", hd, none, some payload⟩).2.1 "id" = some (Value.str freshId) ∧
    ∃ body, loadReceiptById verify
        (saveReceipt verify store now freshId ⟨"POST", hd, none, some payload⟩).2.2
        ⟨"GET", hd, some freshId, none⟩ = (200, body) ∧
      assocGet body "originalData" = assocGet payload "originalData" ∧
      (∀ fs, assocGet payload "processedData" = some (Value.obj fs) →
        assocGet body "processedData" =
          some (Value.obj (fs ++ [("documentId", Value.str freshId)]))) ∧
      (truthyO (assocGet payload "processedData") = false →
        assocGet body "processedData" = assocGet payload "processedData") ∧
      (∀ fs, assocGet payload "shareData" = some (Value.obj fs) →
        assocGet body "shareData" =
          some (Value.obj (fs ++ [("documentId", Value.str freshId)]))) ∧
      (truthyO (assocGet payload "shareData") = false →
        assocGet body "shareData" = assocGet payload "shareData") ∧
      assocGet body "documentId" = some (Value.str freshId) ∧
      assocGet body "success" = some (Value.bool true) := by
  have hval : validateReceiptData payload = true := validateReceiptData_true payload h1 h2 h3
  have hfr : freshId ≠ "" := isValidObjectId_ne_empty hidv
  rw [saveReceipt_success verify store now freshId hd uid payload payload2 ha hfr hval hstamp]
  obtain ⟨X, hp2⟩ := stampMetadata_shape hstamp
  subst hp2
  have hD : ∀ k, k ≠ "processingMetadata" → k ≠ "createdAt" → k ≠ "updatedAt" →
      k ≠ "_id" →
      assocGet ((payload ++ [("processingMetadata", X)]) ++
        [("createdAt", Value.date now), ("updatedAt", Value.date now),
         ("_id", Value.str freshId)]) k = assocGet payload k := by
    intro k hk1 hk2 hk3 hk4
    have htail : assocGet [("createdAt", Value.date now), ("updatedAt", Value.date now),
        ("_id", Value.str freshId)] k = (none : Option Value) := by
      simp [assocGet, Ne.symm hk2, Ne.symm hk3, Ne.symm hk4]
    rw [assocGet_append, htail, altO_none_left, assocGet_append_one_ne _ _ _ _ hk1]
  have hDget : assocGet (store ++ [(freshId, (payload ++ [("processingMetadata", X)]) ++
      [("createdAt", Value.date now), ("updatedAt", Value.date now),
       ("_id", Value.str freshId)])]) freshId = some ((payload ++ [("processingMetadata", X)]) ++
      [("createdAt", Value.date now), ("updatedAt", Value.date now),
       ("_id", Value.str freshId)]) :=
    assocGet_append_right_some store (assocGet_singleton_eq _ _)
  have hshD := hD "shareData" (by decide) (by decide) (by decide) (by decide)
  have hpdD := hD "processedData" (by decide) (by decide) (by decide) (by decide)
  have hsh : (∃ fs, assocGet ((payload ++ [("processingMetadata", X)]) ++
      [("createdAt", Value.date now), ("updatedAt", Value.date now),
       ("_id", Value.str freshId)]) "shareData" = some (Value.obj fs)) ∨
      truthyO (assocGet ((payload ++ [("processingMetadata", X)]) ++
        [("createdAt", Value.date now), ("updatedAt", Value.date now),
         ("_id", Value.str freshId)]) "shareData") = false := by
    rw [hshD]
    cases hs : truthyO (assocGet payload "shareData")
    · exact Or.inr rfl
    · obtain ⟨v, hv, _⟩ := truthyO_some_of_true hs
      have hit := h3 hs
      rw [hv] at hit
      obtain ⟨fs, hfs⟩ := hasItemsArray_obj hit
      have hfs2 : v = Value.obj fs := hfs
      exact Or.inl ⟨fs, by rw [hv, hfs2]⟩
  have hpd : (∃ fs, assocGet ((payload ++ [("processingMetadata", X)]) ++
      [("createdAt", Value.date now), ("updatedAt", Value.date now),
       ("_id", Value.str freshId)]) "processedData" = some (Value.obj fs)) ∨
      truthyO (assocGet ((payload ++ [("processingMetadata", X)]) ++
        [("createdAt", Value.date now), ("updatedAt", Value.date now),
         ("_id", Value.str freshId)]) "processedData") = false := by
    rw [hpdD]
    cases hs : truthyO (assocGet payload "processedData")
    · exact Or.inr rfl
    · obtain ⟨v, hv, _⟩ := truthyO_some_of_true hs
      have hit := h2 hs
      rw [hv] at hit
      obtain ⟨fs, hfs⟩ := hasItemsArray_obj hit
      have hfs2 : v = Value.obj fs := hfs
      exact Or.inl ⟨fs, by rw [hv, hfs2]⟩
  obtain ⟨d2, hload, hOther, hshObj, hshF, hpdObj, hpdF⟩ :=
    loadReceiptById_success verify _ hd uid freshId _ ha hidv hDget hsh hpd
  have htail2 : ∀ k, k ≠ "documentId" → k ≠ "success" →
      assocGet [("documentId", Value.str freshId), ("success", Value.bool true)] k =
        (none : Option Value) := by
    intro k hk1 hk2
    simp [assocGet, Ne.symm hk1, Ne.symm hk2]
  refine ⟨by simp [assocGet],
    d2 ++ [("documentId", Value.str freshId), ("success", Value.bool true)],
    hload, ?_, ?_, ?_, ?_, ?_, ?_, ?_⟩
  · rw [assocGet_append, htail2 "originalData" (by decide) (by decide), altO_none_left,
      hOther "originalData" (by decide) (by decide),
      hD "originalData" (by decide) (by decide) (by decide) (by decide)]
  · intro fs hfs
    rw [assocGet_append, htail2 "processedData" (by decide) (by decide), altO_none_left]
    refine hpdObj fs ?_
    rw [hpdD, hfs]
  · intro hf
    rw [assocGet_append, htail2 "processedData" (by decide) (by decide), altO_none_left,
      hpdF (by rw [hpdD]; exact hf), hpdD]
  · intro fs hfs
    rw [assocGet_append, htail2 "shareData" (by decide) (by decide), altO_none_left]
    refine hshObj fs ?_
    rw [hshD, hfs]
  · intro hf
    rw [assocGet_append, htail2 "shareData" (by decide) (by decide), altO_none_left,
      hshF (by rw [hshD]; exact hf), hshD]
  · refine assocGet_append_right_some d2 ?_
    simp [assocGet]
  · refine assocGet_append_right_some d2 ?_
    simp [assocGet]

theorem c3_witness :
    assocGet (saveReceipt (fun _ => TokenOutcome.decoded "user1") ([] : Store) 5
      "507f1f77bcf86cd799439011"
      ⟨"POST", some "Bearer t", none,
        some [("originalData", Value.obj [("image", Value.str "img1")])]⟩).2.1 "id" =
      some (Value.str "507f1f77bcf86cd799439011") :=
  (c3_load_after_save (fun _ => TokenOutcome.decoded "user1") [] 5
    "507f1f77bcf86cd799439011" (some "Bearer t") "user1"
    [("originalData", Value.obj [("image", Value.str "img1")])]
    ([("originalData", Value.obj [("image", Value.str "img1")]),
      ("processingMetadata", defaultMetadata 5 "user1")])
    (by decide) (by decide) (Or.inl (by decide)) (by decide) (by decide) rfl).1


/-- A validated optional field (items check) is an object when truthy. -/
theorem payloadFieldShape (payload : Doc) (key : String)
    (hit : truthyO (assocGet payload key) = true →
      hasItemsArray ((assocGet payload key).getD Value.null) = true) :
    (∃ fs, assocGet payload key = some (Value.obj fs)) ∨
    truthyO (assocGet payload key) = false := by
  cases hs : truthyO (assocGet payload key)
  · exact Or.inr rfl
  · obtain ⟨v, hv, _⟩ := truthyO_some_of_true hs
    have h2 := hit hs
    rw [hv] at h2
    obtain ⟨fs, hfs⟩ := hasItemsArray_obj h2
    have hfs2 : v = Value.obj fs := hfs
    exact Or.inl ⟨fs, by rw [hv, hfs2]⟩

/-- Claim C6 (counterexample): an accepted update whose patch contains
processedData (and a processingMetadata naming "alice") followed by a load
does not return the patch's value at every patch key: the loaded
processedData carries an injected documentId the patch never had (and the
stored processingMetadata names the caller "bob", not "alice"). -/
theorem c6_counterexample :
    (updateReceiptByIdHandler (fun _ => TokenOutcome.decoded "bob")
      [("507f1f77bcf86cd799439011", [("createdAt", Value.date 0)])] 1
      ⟨"PUT", some "Bearer t", some "507f1f77bcf86cd799439011",
        some [("processedData", Value.obj [("items", Value.arr [])]),
              ("processingMetadata", Value.obj [("userId", Value.str "alice")])]⟩).1
      = 200 ∧
    (loadReceiptById (fun _ => TokenOutcome.decoded "bob")
      (updateReceiptByIdHandler (fun _ => TokenOutcome.decoded "bob")
        [("507f1f77bcf86cd799439011", [("createdAt", Value.date 0)])] 1
        ⟨"PUT", some "Bearer t", some "507f1f77bcf86cd799439011",
          some [("processedData", Value.obj [("items", Value.arr [])]),
                ("processingMetadata", Value.obj [("userId", Value.str "alice")])]⟩).2.2
      ⟨"GET", some "Bearer t", some "507f1f77bcf86cd799439011", none⟩).1 = 200 ∧
    assocGet (loadReceiptById (fun _ => TokenOutcome.decoded "bob")
      (updateReceiptByIdHandler (fun _ => TokenOutcome.decoded "bob")
        [("507f1f77bcf86cd799439011", [("createdAt", Value.date 0)])] 1
        ⟨"PUT", some "Bearer t", some "507f1f77bcf86cd799439011",
          some [("processedData", Value.obj [("items", Value.arr [])]),
                ("processingMetadata", Value.obj [("userId", Value.str "alice")])]⟩).2.2
      ⟨"GET", some "Bearer t", some "507f1f77bcf86cd799439011", none⟩).2
      "processedData" ≠
    assocGet [("processedData", Value.obj [("items", Value.arr [])]),
              ("processingMetadata", Value.obj [("userId", Value.str "alice")])]
      "processedData" := by
  refine ⟨rfl, rfl, ?_⟩
  have hL : assocGet (loadReceiptById (fun _ => TokenOutcome.decoded "bob")
      (updateReceiptByIdHandler (fun _ => TokenOutcome.decoded "bob")
        [("507f1f77bcf86cd799439011", [("createdAt", Value.date 0)])] 1
        ⟨"PUT", some "Bearer t", some "507f1f77bcf86cd799439011",
          some [("processedData", Value.obj [("items", Value.arr [])]),
                ("processingMetadata", Value.obj [("userId", Value.str "alice")])]⟩).2.2
      ⟨"GET", some "Bearer t", some "507f1f77bcf86cd799439011", none⟩).2
      "processedData" =
      some (Value.obj [("items", Value.arr []),
        ("documentId", Value.str "507f1f77bcf86cd799439011")]) := rfl
  have hR : assocGet [("processedData", Value.obj [("items", Value.arr [])]),
      ("processingMetadata", Value.obj [("userId", Value.str "alice")])]
      "processedData" = some (Value.obj [("items", Value.arr [])]) := rfl
  rw [hL, hR]
  intro h
  simp at h


/-- Claim C6 (amended): after save at time t0 and an accepted update at a
strictly later time t1, load returns the patch's value at every top-level
patch key except createdAt, updatedAt, processingMetadata (which the
handler overwrites), the keys the load response itself overrides
(documentId, success), the store's _id, and except that processedData and
shareData reflect the patch's value with a documentId injected when truthy;
createdAt is unchanged from the original save and updatedAt is strictly
later than the original. -/
theorem c6_update_then_load (verify : String → TokenOutcome) (store : Store)
    (t0 t1 : Nat) (freshId : String) (hd : Option String) (uid : String)
    (payload payload2 patch : Doc) (m : Value)
    (ha : verifyAuthToken verify hd = some uid)
    (hidv : isValidObjectId freshId = true)
    (h1 : truthyO (assocGet payload "originalData") = true ∨
          truthyO (assocGet payload "processedData") = true ∨
          truthyO (assocGet payload "shareData") = true)
    (h2 : truthyO (assocGet payload "processedData") = true →
          hasItemsArray ((assocGet payload "processedData").getD Value.null) = true)
    (h3 : truthyO (assocGet payload "shareData") = true →
          hasItemsArray ((assocGet payload "shareData").getD Value.null) = true)
    (hstamp : stampMetadata payload t0 uid = some payload2)
    (htime : t0 < t1)
    (hm : assocGet patch "processingMetadata" = some m)
    (hmt : truthy m = true)
    (hppd : (∃ fs, assocGet patch "processedData" = some (Value.obj fs)) ∨
            truthyO (assocGet patch "processedData") = false)
    (hpsd : (∃ fs, assocGet patch "shareData" = some (Value.obj fs)) ∨
            truthyO (assocGet patch "shareData") = false) :
    (updateReceiptByIdHandler verify
        (saveReceipt verify store t0 freshId ⟨"POST", hd, none, some payload⟩).2.2
        t1 ⟨"PUT", hd, some freshId, some patch⟩).1 = 200 ∧
    ∃ body, loadReceiptById verify
        (updateReceiptByIdHandler verify
          (saveReceipt verify store t0 freshId ⟨"POST", hd, none, some payload⟩).2.2
          t1 ⟨"PUT", hd, some freshId, some patch⟩).2.2
        ⟨"GET", hd, some freshId, none⟩ = (200, body) ∧
      (∀ k, k ∉ (["createdAt", "updatedAt", "processingMetadata", "processedData",
          "shareData", "documentId", "success", "_id"] : List String) →
        ∀ v, assocGet patch k = some v → assocGet body k = some v) ∧
      (∀ fs, assocGet patch "processedData" = some (Value.obj fs) →
        assocGet body "processedData" =
          some (Value.obj (fs ++ [("documentId", Value.str freshId)]))) ∧
      (∀ v, assocGet patch "processedData" = some v → truthy v = false →
        assocGet body "processedData" = some v) ∧
      (∀ fs, assocGet patch "shareData" = some (Value.obj fs) →
        assocGet body "shareData" =
          some (Value.obj (fs ++ [("documentId", Value.str freshId)]))) ∧
      (∀ v, assocGet patch "shareData" = some v → truthy v = false →
        assocGet body "shareData" = some v) ∧
      assocGet body "createdAt" = some (Value.date t0) ∧
      assocGet body "updatedAt" = some (Value.date t1) ∧
      t0 < t1 := by
  have hval : validateReceiptData payload = true := validateReceiptData_true payload h1 h2 h3
  have hfr : freshId ≠ "" := isValidObjectId_ne_empty hidv
  obtain ⟨X, hp2⟩ := stampMetadata_shape hstamp
  subst hp2
  have hstore1 : (saveReceipt verify store t0 freshId
      ⟨"POST", hd, none, some payload⟩).2.2 =
      store ++ [(freshId, (payload ++ [("processingMetadata", X)]) ++
        [("createdAt", Value.date t0), ("updatedAt", Value.date t0),
         ("_id", Value.str freshId)])] := by
    rw [saveReceipt_success verify store t0 freshId hd uid payload _ ha hfr hval hstamp]
  rw [hstore1]
  have hD0get : assocGet (store ++ [(freshId, (payload ++ [("processingMetadata", X)]) ++
      [("createdAt", Value.date t0), ("updatedAt", Value.date t0),
       ("_id", Value.str freshId)])]) freshId =
      some ((payload ++ [("processingMetadata", X)]) ++
      [("createdAt", Value.date t0), ("updatedAt", Value.date t0),
       ("_id", Value.str freshId)]) :=
    assocGet_append_right_some store (assocGet_singleton_eq _ _)
  have hD0other : ∀ k, k ≠ "processingMetadata" → k ≠ "createdAt" → k ≠ "updatedAt" →
      k ≠ "_id" →
      assocGet ((payload ++ [("processingMetadata", X)]) ++
        [("createdAt", Value.date t0), ("updatedAt", Value.date t0),
         ("_id", Value.str freshId)]) k = assocGet payload k := by
    intro k hk1 hk2 hk3 hk4
    have htail : assocGet [("createdAt", Value.date t0), ("updatedAt", Value.date t0),
        ("_id", Value.str freshId)] k = (none : Option Value) := by
      simp [assocGet, Ne.symm hk2, Ne.symm hk3, Ne.symm hk4]
    rw [assocGet_append, htail, altO_none_left, assocGet_append_one_ne _ _ _ _ hk1]
  have hD0cA : assocGet ((payload ++ [("processingMetadata", X)]) ++
      [("createdAt", Value.date t0), ("updatedAt", Value.date t0),
       ("_id", Value.str freshId)]) "createdAt" = some (Value.date t0) := by
    refine assocGet_append_right_some _ ?_
    simp [assocGet]
  have hupd := updateHandler_success verify _ t1 hd uid freshId patch _ m
    ha hidv hD0get hm hmt
  have hstore2 : (updateReceiptByIdHandler verify
      (store ++ [(freshId, (payload ++ [("processingMetadata", X)]) ++
        [("createdAt", Value.date t0), ("updatedAt", Value.date t0),
         ("_id", Value.str freshId)])])
      t1 ⟨"PUT", hd, some freshId, some patch⟩).2.2 =
      replaceStore (store ++ [(freshId, (payload ++ [("processingMetadata", X)]) ++
        [("createdAt", Value.date t0), ("updatedAt", Value.date t0),
         ("_id", Value.str freshId)])]) freshId
        (updateSetDoc ((payload ++ [("processingMetadata", X)]) ++
          [("createdAt", Value.date t0), ("updatedAt", Value.date t0),
           ("_id", Value.str freshId)]) t1
          (patch ++ [("processingMetadata", overwrittenMeta m t1 uid)])) := by
    rw [hupd]
  refine ⟨by rw [hupd], ?_⟩
  rw [hstore2]
  have hD1get : assocGet (replaceStore (store ++ [(freshId,
      (payload ++ [("processingMetadata", X)]) ++
        [("createdAt", Value.date t0), ("updatedAt", Value.date t0),
         ("_id", Value.str freshId)])]) freshId
      (updateSetDoc ((payload ++ [("processingMetadata", X)]) ++
        [("createdAt", Value.date t0), ("updatedAt", Value.date t0),
         ("_id", Value.str freshId)]) t1
        (patch ++ [("processingMetadata", overwrittenMeta m t1 uid)]))) freshId =
      some (updateSetDoc ((payload ++ [("processingMetadata", X)]) ++
        [("createdAt", Value.date t0), ("updatedAt", Value.date t0),
         ("_id", Value.str freshId)]) t1
        (patch ++ [("processingMetadata", overwrittenMeta m t1 uid)])) := by
    rw [assocGet_replaceStore_eq, hD0get]
    rfl
  have hD1other : ∀ k, k ≠ "updatedAt" → k ≠ "createdAt" → k ≠ "processingMetadata" →
      assocGet (updateSetDoc ((payload ++ [("processingMetadata", X)]) ++
        [("createdAt", Value.date t0), ("updatedAt", Value.date t0),
         ("_id", Value.str freshId)]) t1
        (patch ++ [("processingMetadata", overwrittenMeta m t1 uid)])) k =
      altO (assocGet patch k)
        (assocGet ((payload ++ [("processingMetadata", X)]) ++
          [("createdAt", Value.date t0), ("updatedAt", Value.date t0),
           ("_id", Value.str freshId)]) k) := by
    intro k hk1 hk2 hk3
    rw [updateSetDoc_get_other _ _ _ k hk1 hk2, assocGet_append_one_ne _ _ _ _ hk3]
  have hD1cA : assocGet (updateSetDoc ((payload ++ [("processingMetadata", X)]) ++
      [("createdAt", Value.date t0), ("updatedAt", Value.date t0),
       ("_id", Value.str freshId)]) t1
      (patch ++ [("processingMetadata", overwrittenMeta m t1 uid)])) "createdAt" =
      some (Value.date t0) := by
    rw [updateSetDoc_get_createdAt_truthy _ _ _ (by rw [hD0cA]; rfl), hD0cA]
  have hD1uA : assocGet (updateSetDoc ((payload ++ [("processingMetadata", X)]) ++
      [("createdAt", Value.date t0), ("updatedAt", Value.date t0),
       ("_id", Value.str freshId)]) t1
      (patch ++ [("processingMetadata", overwrittenMeta m t1 uid)])) "updatedAt" =
      some (Value.date t1) := updateSetDoc_get_updatedAt _ _ _
  have hD1pd : assocGet (updateSetDoc ((payload ++ [("processingMetadata", X)]) ++
      [("createdAt", Value.date t0), ("updatedAt", Value.date t0),
       ("_id", Value.str freshId)]) t1
      (patch ++ [("processingMetadata", overwrittenMeta m t1 uid)])) "processedData" =
      altO (assocGet patch "processedData") (assocGet payload "processedData") := by
    rw [hD1other "processedData" (by decide) (by decide) (by decide),
      hD0other "processedData" (by decide) (by decide) (by decide) (by decide)]
  have hD1sd : assocGet (updateSetDoc ((payload ++ [("processingMetadata", X)]) ++
      [("createdAt", Value.date t0), ("updatedAt", Value.date t0),
       ("_id", Value.str freshId)]) t1
      (patch ++ [("processingMetadata", overwrittenMeta m t1 uid)])) "shareData" =
      altO (assocGet patch "shareData") (assocGet payload "shareData") := by
    rw [hD1other "shareData" (by decide) (by decide) (by decide),
      hD0other "shareData" (by decide) (by decide) (by decide) (by decide)]
  have hpdShape : (∃ fs, assocGet (updateSetDoc ((payload ++ [("processingMetadata", X)]) ++
      [("createdAt", Value.date t0), ("updatedAt", Value.date t0),
       ("_id", Value.str freshId)]) t1
      (patch ++ [("processingMetadata", overwrittenMeta m t1 uid)])) "processedData" =
        some (Value.obj fs)) ∨
      truthyO (assocGet (updateSetDoc ((payload ++ [("processingMetadata", X)]) ++
        [("createdAt", Value.date t0), ("updatedAt", Value.date t0),
         ("_id", Value.str freshId)]) t1
        (patch ++ [("processingMetadata", overwrittenMeta m t1 uid)])) "processedData")
        = false := by
    rw [hD1pd]
    rcases hppd with ⟨fs, hfs⟩ | hf
    · exact Or.inl ⟨fs, by rw [hfs, altO_some]⟩
    · cases hv : assocGet patch "processedData" with
      | some v =>
        rw [hv] at hf
        exact Or.inr (by rw [altO_some]; exact hf)
      | none =>
        rcases payloadFieldShape payload "processedData" h2 with ⟨fs, hfs⟩ | hpf
        · exact Or.inl ⟨fs, by rw [altO_none_left, hfs]⟩
        · exact Or.inr (by rw [altO_none_left]; exact hpf)
  have hsdShape : (∃ fs, assocGet (updateSetDoc ((payload ++ [("processingMetadata", X)]) ++
      [("createdAt", Value.date t0), ("updatedAt", Value.date t0),
       ("_id", Value.str freshId)]) t1
      (patch ++ [("processingMetadata", overwrittenMeta m t1 uid)])) "shareData" =
        some (Value.obj fs)) ∨
      truthyO (assocGet (updateSetDoc ((payload ++ [("processingMetadata", X)]) ++
        [("createdAt", Value.date t0), ("updatedAt", Value.date t0),
         ("_id", Value.str freshId)]) t1
        (patch ++ [("processingMetadata", overwrittenMeta m t1 uid)])) "shareData")
        = false := by
    rw [hD1sd]
    rcases hpsd with ⟨fs, hfs⟩ | hf
    · exact Or.inl ⟨fs, by rw [hfs, altO_some]⟩
    · cases hv : assocGet patch "shareData" with
      | some v =>
        rw [hv] at hf
        exact Or.inr (by rw [altO_some]; exact hf)
      | none =>
        rcases payloadFieldShape payload "shareData" h3 with ⟨fs, hfs⟩ | hpf
        · exact Or.inl ⟨fs, by rw [altO_none_left, hfs]⟩
        · exact Or.inr (by rw [altO_none_left]; exact hpf)
  obtain ⟨d2, hload, hOther, hshObj, hshF, hpdObj, hpdF⟩ :=
    loadReceiptById_success verify _ hd uid freshId _ ha hidv hD1get hsdShape hpdShape
  have htail2 : ∀ k, k ≠ "documentId" → k ≠ "success" →
      assocGet [("documentId", Value.str freshId), ("success", Value.bool true)] k =
        (none : Option Value) := by
    intro k hk1 hk2
    simp [assocGet, Ne.symm hk1, Ne.symm hk2]
  refine ⟨d2 ++ [("documentId", Value.str freshId), ("success", Value.bool true)],
    hload, ?_, ?_, ?_, ?_, ?_, ?_, ?_, htime⟩
  · intro k hk v hv
    simp only [List.mem_cons, List.not_mem_nil, or_false, not_or] at hk
    obtain ⟨hk1, hk2, hk3, hk4, hk5, hk6, hk7, hk8⟩ := hk
    rw [assocGet_append, htail2 k hk6 hk7, altO_none_left, hOther k hk5 hk4,
      hD1other k hk2 hk1 hk3, hv, altO_some]
  · intro fs hfs
    rw [assocGet_append, htail2 "processedData" (by decide) (by decide), altO_none_left]
    refine hpdObj fs ?_
    rw [hD1pd, hfs, altO_some]
  · intro v hv hvf
    rw [assocGet_append, htail2 "processedData" (by decide) (by decide), altO_none_left,
      hpdF (by rw [hD1pd, hv, altO_some]; exact hvf), hD1pd, hv, altO_some]
  · intro fs hfs
    rw [assocGet_append, htail2 "shareData" (by decide) (by decide), altO_none_left]
    refine hshObj fs ?_
    rw [hD1sd, hfs, altO_some]
  · intro v hv hvf
    rw [assocGet_append, htail2 "shareData" (by decide) (by decide), altO_none_left,
      hshF (by rw [hD1sd, hv, altO_some]; exact hvf), hD1sd, hv, altO_some]
  · rw [assocGet_append, htail2 "createdAt" (by decide) (by decide), altO_none_left,
      hOther "createdAt" (by decide) (by decide), hD1cA]
  · rw [assocGet_append, htail2 "updatedAt" (by decide) (by decide), altO_none_left,
      hOther "updatedAt" (by decide) (by decide), hD1uA]


theorem c6_witness :
    (updateReceiptByIdHandler (fun _ => TokenOutcome.decoded "bob")
      (saveReceipt (fun _ => TokenOutcome.decoded "bob") ([] : Store) 0
        "507f1f77bcf86cd799439011"
        ⟨"POST", some "Bearer t", none,
          some [("processedData", Value.obj [("items", Value.arr [])])]⟩).2.2
      1 ⟨"PUT", some "Bearer t", some "507f1f77bcf86cd799439011",
        some [("note", Value.str "hello"),
              ("processingMetadata", Value.obj [("userId", Value.str "alice")])]⟩).1
      = 200 :=
  (c6_update_then_load (fun _ => TokenOutcome.decoded "bob") [] 0 1
    "507f1f77bcf86cd799439011" (some "Bearer t") "bob"
    [("processedData", Value.obj [("items", Value.arr [])])]
    ([("processedData", Value.obj [("items", Value.arr [])]),
      ("processingMetadata", defaultMetadata 0 "bob")])
    [("note", Value.str "hello"),
     ("processingMetadata", Value.obj [("userId", Value.str "alice")])]
    (Value.obj [("userId", Value.str "alice")])
    (by decide) (by decide) (Or.inr (Or.inl (by decide))) (by decide) (by decide)
    rfl (by decide) rfl (by decide) (Or.inr (by decide)) (Or.inr (by decide))).1

end GoDutch
